import Mathlib

/-!
Shallow embedding of the Bots repository (src/main.py) in Lean 4.

The program is a content-generation bot.  The parts the claims are about:

* `is_safe_prompt` (main.py lines 24-42): one content-filter call; safe iff
  the stripped label differs from "2"; any exception counts as unsafe.
* `generate_prompt_with_chatgpt` (lines 44-68): a bounded retry loop that
  generates a candidate, classifies it, accepts on a safe verdict, and
  returns a fixed fallback string after exhausting the attempts.  A
  generator exception is not caught and propagates to the caller.
* `summarize_prompt_with_chatgpt` (lines 70-92): caption derivation with
  truncation to a character budget, on a success path and an error path.
* `run_bot_and_post` (lines 165-186): the Flask route, returning status 200
  for every completed workflow and 500 exactly when an exception escapes.

External collaborators (the OpenAI completion calls) are modelled as
call-indexed oracles: the generator behaviour is a function from the attempt
index and the prompt text to a result or an error, the classifier behaviour
a function from the call index and the classified text to a raw label or an
error.  `datetime.now().strftime` is modelled as a fixed date string of the
invocation, per the spec ("pure function over its inputs plus current
date").  Python string `.strip()` is modelled by `pyStrip` below, a raised
exception by the `Except.error` constructor.
-/

namespace Bots

/-- One outbound collaborator call made by the retry loop: a generator
(completion) call or a classifier (content-filter) call, tagged with the
attempt index on which it happened. -/
inductive CallEvent where
  | genCall (i : Nat)
  | clsCall (i : Nat)
deriving DecidableEq, Repr

/-- Number of generator calls in a trace. -/
def genCount : List CallEvent → Nat
  | [] => 0
  | CallEvent.genCall _ :: tr => genCount tr + 1
  | CallEvent.clsCall _ :: tr => genCount tr

/-- Number of classifier calls in a trace. -/
def clsCount : List CallEvent → Nat
  | [] => 0
  | CallEvent.genCall _ :: tr => clsCount tr
  | CallEvent.clsCall _ :: tr => clsCount tr + 1

/-- The attempt index a call event carries. -/
def eventIndex : CallEvent → Nat
  | CallEvent.genCall i => i
  | CallEvent.clsCall i => i

/-- Behaviour of the two external collaborators during one invocation:
`gen i s` is the outcome of the generator completion call on attempt `i`
with prompt text `s` (the text of choice 0, or a raised exception), and
`cls i s` is the outcome of the `i`-th content-filter call on text `s`
(the raw label text of choice 0, or a raised exception).  `today` is the
`datetime.now().strftime("%B %d")` value of the invocation. -/
structure Collaborators where
  gen : Nat → String → Except String String
  cls : Nat → String → Except String String
  today : String

/-- The fixed fallback sentence returned after exhausting all attempts
(main.py line 68). -/
def fallbackString : String :=
  "Unable to generate a safe prompt after multiple attempts."

/-- The text handed to the content filter (main.py line 32):
`"" + prompt + "\n--\nLabel:"`. -/
def filterInput (prompt : String) : String :=
  "" ++ prompt ++ "\n--\nLabel:"

/-- Python `str.strip()`: remove leading and trailing whitespace from both
ends of the string.  Written over the character list so that it reduces on
concrete inputs. -/
def pyStrip (s : String) : String :=
  String.mk (((s.data.dropWhile Char.isWhitespace).reverse.dropWhile Char.isWhitespace).reverse)

/-- `is_safe_prompt` (main.py lines 24-42): calls the content filter on the
candidate, strips the returned label, and reports safe iff the label is not
`"2"`; a raised exception yields `False` (unsafe). -/
def is_safe_prompt (classify : String → Except String String) (prompt : String) : Bool :=
  match classify (filterInput prompt) with
  | Except.ok label => pyStrip label != "2"
  | Except.error _ => false

/-- The date-dependent generation template (main.py line 52). -/
def promptText (today : String) : String :=
  "Generate a creative and weird prompt for image generation based on significant historical events, births, and deaths that occurred in the past on "
    ++ today ++ "."

/-- The body of the `for attempt in range(attempts)` loop of
`generate_prompt_with_chatgpt` (main.py lines 50-68), started at attempt
index `k` with the given number of remaining iterations.  Returns the
function result (`Except.error` when the uncaught generator exception
propagates) together with the trace of collaborator calls made. -/
def generateFrom (c : Collaborators) : Nat → Nat → Except String String × List CallEvent
  | _, 0 => (Except.ok fallbackString, [])
  | k, n + 1 =>
    match c.gen k (promptText c.today) with
    | Except.error e => (Except.error e, [CallEvent.genCall k])
    | Except.ok text =>
      let generated_prompt := pyStrip text
      if is_safe_prompt (c.cls k) generated_prompt then
        (Except.ok generated_prompt, [CallEvent.genCall k, CallEvent.clsCall k])
      else
        let rest := generateFrom c (k + 1) n
        (rest.1, CallEvent.genCall k :: CallEvent.clsCall k :: rest.2)

/-- `generate_prompt_with_chatgpt` (main.py lines 44-68): run the retry loop
from attempt index 0 for `attempts` iterations. -/
def generate_prompt_with_chatgpt (c : Collaborators) (attempts : Nat) :
    Except String String × List CallEvent :=
  generateFrom c 0 attempts

/-- The default argument `attempts=3` of main.py line 44. -/
def defaultAttempts : Nat := 3

/-- If the generator succeeds on attempts `k..k+i`, the candidates of
attempts `k..k+i-1` are rejected and the candidate of attempt `k+i` is
judged safe, the loop started at `k` returns that candidate after exactly
`i+1` generator calls and `i+1` classifier calls. -/
lemma generateFrom_accept (c : Collaborators) (t : Nat → String) :
    ∀ i k n, i < n →
    (∀ j, j ≤ i → c.gen (k + j) (promptText c.today) = Except.ok (t (k + j))) →
    (∀ j, j < i → is_safe_prompt (c.cls (k + j)) (pyStrip (t (k + j))) = false) →
    is_safe_prompt (c.cls (k + i)) (pyStrip (t (k + i))) = true →
    (generateFrom c k n).1 = Except.ok (pyStrip (t (k + i))) ∧
    genCount (generateFrom c k n).2 = i + 1 ∧
    clsCount (generateFrom c k n).2 = i + 1 := by
  intro i
  induction i with
  | zero =>
    intro k n hn hgen hrej hacc
    obtain ⟨m, rfl⟩ : ∃ m, n = m + 1 := ⟨n - 1, by omega⟩
    have e1 : c.gen k (promptText c.today) = Except.ok (t k) := by
      have := hgen 0 (le_refl 0); simpa using this
    have e2 : is_safe_prompt (c.cls k) (pyStrip (t k)) = true := by simpa using hacc
    simp [generateFrom, e1, e2, genCount, clsCount]
  | succ i ih =>
    intro k n hn hgen hrej hacc
    obtain ⟨m, rfl⟩ : ∃ m, n = m + 1 := ⟨n - 1, by omega⟩
    have e1 : c.gen k (promptText c.today) = Except.ok (t k) := by
      have := hgen 0 (by omega); simpa using this
    have e2 : is_safe_prompt (c.cls k) (pyStrip (t k)) = false := by
      have := hrej 0 (by omega); simpa using this
    have ih' := ih (k + 1) m (by omega)
      (fun j hj => by
        have := hgen (j + 1) (by omega)
        rwa [show k + (j + 1) = k + 1 + j from by omega] at this)
      (fun j hj => by
        have := hrej (j + 1) (by omega)
        rwa [show k + (j + 1) = k + 1 + j from by omega] at this)
      (by rwa [show k + (i + 1) = k + 1 + i from by omega] at hacc)
    rw [show k + (i + 1) = k + 1 + i from by omega]
    simp only [generateFrom, e1, e2]
    simp [genCount, clsCount, ih'.1, ih'.2.1, ih'.2.2]

/-- If every attempt in range produces a candidate that is rejected, the
loop returns the fallback string after exactly `n` generator calls and `n`
classifier calls. -/
lemma generateFrom_exhaust (c : Collaborators) (t : Nat → String) :
    ∀ n k,
    (∀ j, j < n → c.gen (k + j) (promptText c.today) = Except.ok (t (k + j))) →
    (∀ j, j < n → is_safe_prompt (c.cls (k + j)) (pyStrip (t (k + j))) = false) →
    (generateFrom c k n).1 = Except.ok fallbackString ∧
    genCount (generateFrom c k n).2 = n ∧
    clsCount (generateFrom c k n).2 = n := by
  intro n
  induction n with
  | zero => intro k _ _; simp [generateFrom, genCount, clsCount]
  | succ n ih =>
    intro k hgen hrej
    have e1 : c.gen k (promptText c.today) = Except.ok (t k) := by
      have := hgen 0 (by omega); simpa using this
    have e2 : is_safe_prompt (c.cls k) (pyStrip (t k)) = false := by
      have := hrej 0 (by omega); simpa using this
    have ih' := ih (k + 1)
      (fun j hj => by
        have := hgen (j + 1) (by omega)
        rwa [show k + (j + 1) = k + 1 + j from by omega] at this)
      (fun j hj => by
        have := hrej (j + 1) (by omega)
        rwa [show k + (j + 1) = k + 1 + j from by omega] at this)
    simp only [generateFrom, e1, e2]
    simp [genCount, clsCount, ih'.1, ih'.2.1, ih'.2.2]

/-- For every collaborator behaviour the loop makes at most `n` generator
calls and at most `n` classifier calls, and every call it makes carries an
attempt index in `[k, k+n)`. -/
lemma generateFrom_bounds (c : Collaborators) :
    ∀ n k,
    genCount (generateFrom c k n).2 ≤ n ∧
    clsCount (generateFrom c k n).2 ≤ n ∧
    ∀ ev, ev ∈ (generateFrom c k n).2 → k ≤ eventIndex ev ∧ eventIndex ev < k + n := by
  intro n
  induction n with
  | zero => intro k; simp [generateFrom, genCount, clsCount]
  | succ n ih =>
    intro k
    cases hg : c.gen k (promptText c.today) with
    | error e =>
      refine ⟨?_, ?_, ?_⟩ <;> simp [generateFrom, hg, genCount, clsCount, eventIndex]
    | ok text =>
      by_cases hs : is_safe_prompt (c.cls k) (pyStrip text) = true
      · refine ⟨?_, ?_, ?_⟩ <;>
          simp [generateFrom, hg, hs, genCount, clsCount, eventIndex]
      · have hs' : is_safe_prompt (c.cls k) (pyStrip text) = false := by
          revert hs; cases is_safe_prompt (c.cls k) (pyStrip text) <;> simp
        have ih' := ih (k + 1)
        refine ⟨?_, ?_, ?_⟩
        · simp only [generateFrom, hg, hs']
          simp [genCount]
          omega
        · simp only [generateFrom, hg, hs']
          simp [clsCount]
          omega
        · intro ev hev
          simp only [generateFrom, hg, hs'] at hev
          simp [List.mem_cons] at hev
          rcases hev with rfl | rfl | hev
          · simp only [eventIndex]; omega
          · simp only [eventIndex]; omega
          · have := ih'.2.2 ev hev
            omega

/-- The loop only consults the collaborators at attempt indices in
`[k, k+n)`: two behaviours that agree there (and on the date) produce the
same result and the same call trace. -/
lemma generateFrom_congr (c c' : Collaborators) :
    ∀ n k,
    (∀ j s, k ≤ j → j < k + n → c.gen j s = c'.gen j s) →
    (∀ j s, k ≤ j → j < k + n → c.cls j s = c'.cls j s) →
    c.today = c'.today →
    generateFrom c k n = generateFrom c' k n := by
  intro n
  induction n with
  | zero => intro k _ _ _; simp [generateFrom]
  | succ n ih =>
    intro k hgen hcls htoday
    have hg : c.gen k (promptText c'.today) = c'.gen k (promptText c'.today) :=
      hgen k _ (le_refl k) (by omega)
    have hc : c.cls k = c'.cls k := funext fun s => hcls k s (le_refl k) (by omega)
    have ihe := ih (k + 1) (fun j s h1 h2 => hgen j s (by omega) (by omega))
      (fun j s h1 h2 => hcls j s (by omega) (by omega)) htoday
    simp only [generateFrom, htoday, hg, hc, ihe]

/-- Every run of the loop ends in one of three outcomes: a propagated
generator error, the fallback string, or an accepted candidate that some
in-range attempt generated and the classifier judged safe. -/
lemma generateFrom_outcomes (c : Collaborators) :
    ∀ n k,
    (∃ e, (generateFrom c k n).1 = Except.error e) ∨
    (generateFrom c k n).1 = Except.ok fallbackString ∨
    (∃ i text, k ≤ i ∧ i < k + n ∧
      c.gen i (promptText c.today) = Except.ok text ∧
      is_safe_prompt (c.cls i) (pyStrip text) = true ∧
      (generateFrom c k n).1 = Except.ok (pyStrip text)) := by
  intro n
  induction n with
  | zero => intro k; right; left; simp [generateFrom]
  | succ n ih =>
    intro k
    cases hg : c.gen k (promptText c.today) with
    | error e => exact Or.inl ⟨e, by simp [generateFrom, hg]⟩
    | ok text =>
      by_cases hs : is_safe_prompt (c.cls k) (pyStrip text) = true
      · exact Or.inr (Or.inr
          ⟨k, text, le_refl k, by omega, hg, hs, by simp [generateFrom, hg, hs]⟩)
      · have hs' : is_safe_prompt (c.cls k) (pyStrip text) = false := by
          revert hs; cases is_safe_prompt (c.cls k) (pyStrip text) <;> simp
        have step : (generateFrom c k (n + 1)).1 = (generateFrom c (k + 1) n).1 := by
          simp [generateFrom, hg, hs']
        rcases ih (k + 1) with ⟨e, he⟩ | hfb | ⟨i, text2, h1, h2, h3, h4, h5⟩
        · exact Or.inl ⟨e, by rw [step]; exact he⟩
        · exact Or.inr (Or.inl (by rw [step]; exact hfb))
        · exact Or.inr (Or.inr ⟨i, text2, by omega, by omega, h3, h4, by rw [step]; exact h5⟩)

/-- If attempts `k..k+i-1` succeed and are rejected and the generator call
of attempt `k+i` raises, the loop propagates that error after `i+1`
generator calls and only `i` classifier calls. -/
lemma generateFrom_genError (c : Collaborators) (t : Nat → String) (e : String) :
    ∀ i k n, i < n →
    (∀ j, j < i → c.gen (k + j) (promptText c.today) = Except.ok (t (k + j))) →
    (∀ j, j < i → is_safe_prompt (c.cls (k + j)) (pyStrip (t (k + j))) = false) →
    c.gen (k + i) (promptText c.today) = Except.error e →
    (generateFrom c k n).1 = Except.error e ∧
    genCount (generateFrom c k n).2 = i + 1 ∧
    clsCount (generateFrom c k n).2 = i := by
  intro i
  induction i with
  | zero =>
    intro k n hn hgen hrej herr
    obtain ⟨m, rfl⟩ : ∃ m, n = m + 1 := ⟨n - 1, by omega⟩
    have e1 : c.gen k (promptText c.today) = Except.error e := by simpa using herr
    simp [generateFrom, e1, genCount, clsCount]
  | succ i ih =>
    intro k n hn hgen hrej herr
    obtain ⟨m, rfl⟩ : ∃ m, n = m + 1 := ⟨n - 1, by omega⟩
    have e1 : c.gen k (promptText c.today) = Except.ok (t k) := by
      have := hgen 0 (by omega); simpa using this
    have e2 : is_safe_prompt (c.cls k) (pyStrip (t k)) = false := by
      have := hrej 0 (by omega); simpa using this
    have ih' := ih (k + 1) m (by omega)
      (fun j hj => by
        have := hgen (j + 1) (by omega)
        rwa [show k + (j + 1) = k + 1 + j from by omega] at this)
      (fun j hj => by
        have := hrej (j + 1) (by omega)
        rwa [show k + (j + 1) = k + 1 + j from by omega] at this)
      (by rwa [show k + (i + 1) = k + 1 + i from by omega] at herr)
    simp only [generateFrom, e1, e2]
    simp [genCount, clsCount, ih'.1, ih'.2.1, ih'.2.2]

/-- Collaborator behaviour used for concrete runs: every generator call
succeeds with the attempt index rendered as text; the first classifier call
returns the label "2" (flagged), every later call the label "0". -/
def cOne : Collaborators :=
  ⟨fun i _ => Except.ok (toString i),
   fun i _ => if i = 0 then Except.ok "2" else Except.ok "0",
   "May 04"⟩

/-- Collaborator behaviour whose classifier always returns the label "2". -/
def cAllUnsafe : Collaborators :=
  ⟨fun _ _ => Except.ok "bad", fun _ _ => Except.ok "2", "May 04"⟩

/-- Collaborator behaviour whose classifier raises on its first call and
returns the label "0" afterwards. -/
def cFailClosed : Collaborators :=
  ⟨fun i _ => Except.ok (toString i),
   fun i _ => if i = 0 then Except.error "boom" else Except.ok "0",
   "May 04"⟩

/-- Collaborator behaviour whose generator raises on every call. -/
def cGenErr : Collaborators :=
  ⟨fun _ _ => Except.error "outage", fun _ _ => Except.ok "0", "May 04"⟩

/-- Collaborator behaviour with an always-safe classifier. -/
def cPure1 : Collaborators :=
  ⟨fun i _ => Except.ok (toString i), fun _ _ => Except.ok "0", "May 04"⟩

/-- The behaviour of `cPure1` written differently (same values pointwise). -/
def cPure2 : Collaborators :=
  ⟨fun i _ => Except.ok (toString (i + 0)), fun _ _ => Except.ok "0", "May 04"⟩

/-- C1: if the classifier judges the candidate of attempt `i` safe after
rejecting (by verdict or by error) the candidates of every earlier attempt,
and `i < attempts`, the function returns that candidate immediately after
exactly `i+1` generator calls and `i+1` classifier calls — so at most one
accepted prompt is produced per invocation. -/
theorem c1_immediate_accept (c : Collaborators) (attempts i : Nat) (t : Nat → String)
    (hlt : i < attempts)
    (hgen : ∀ j, j ≤ i → c.gen j (promptText c.today) = Except.ok (t j))
    (hrej : ∀ j, j < i → is_safe_prompt (c.cls j) (pyStrip (t j)) = false)
    (hacc : is_safe_prompt (c.cls i) (pyStrip (t i)) = true) :
    (generate_prompt_with_chatgpt c attempts).1 = Except.ok (pyStrip (t i)) ∧
    genCount (generate_prompt_with_chatgpt c attempts).2 = i + 1 ∧
    clsCount (generate_prompt_with_chatgpt c attempts).2 = i + 1 := by
  have h := generateFrom_accept c t i 0 attempts hlt
    (fun j hj => by simpa using hgen j hj)
    (fun j hj => by simpa using hrej j hj)
    (by simpa using hacc)
  simpa [generate_prompt_with_chatgpt] using h

/-- Concrete run for C1: with `cOne` the second attempt is accepted after
two generator calls and two classifier calls. -/
theorem c1_immediate_accept_witness :
    (generate_prompt_with_chatgpt cOne 3).1 = Except.ok (pyStrip (toString 1)) ∧
    genCount (generate_prompt_with_chatgpt cOne 3).2 = 1 + 1 ∧
    clsCount (generate_prompt_with_chatgpt cOne 3).2 = 1 + 1 :=
  c1_immediate_accept cOne 3 1 (fun j => toString j) (by omega)
    (fun j hj => rfl)
    (fun j hj => by interval_cases j; decide)
    (by decide)

/-- C2: with a positive attempt budget, when every attempt in range yields
a generated candidate that the classifier rejects, the function makes
exactly `attempts` generator calls and `attempts` classifier calls and then
returns the literal fallback string. -/
theorem c2_bounded_retries_fallback (c : Collaborators) (attempts : Nat) (t : Nat → String)
    (_hpos : 0 < attempts)
    (hgen : ∀ j, j < attempts → c.gen j (promptText c.today) = Except.ok (t j))
    (hrej : ∀ j, j < attempts → is_safe_prompt (c.cls j) (pyStrip (t j)) = false) :
    (generate_prompt_with_chatgpt c attempts).1 =
      Except.ok "Unable to generate a safe prompt after multiple attempts." ∧
    genCount (generate_prompt_with_chatgpt c attempts).2 = attempts ∧
    clsCount (generate_prompt_with_chatgpt c attempts).2 = attempts := by
  have h := generateFrom_exhaust c t attempts 0
    (fun j hj => by simpa using hgen j hj)
    (fun j hj => by simpa using hrej j hj)
  simpa [generate_prompt_with_chatgpt, fallbackString] using h

/-- Concrete run for C2 at the `attempts = 1` boundary: one generator and
one classifier call, then the fallback. -/
theorem c2_bounded_retries_fallback_witness :
    (generate_prompt_with_chatgpt cAllUnsafe 1).1 =
      Except.ok "Unable to generate a safe prompt after multiple attempts." ∧
    genCount (generate_prompt_with_chatgpt cAllUnsafe 1).2 = 1 ∧
    clsCount (generate_prompt_with_chatgpt cAllUnsafe 1).2 = 1 :=
  c2_bounded_retries_fallback cAllUnsafe 1 (fun _ => "bad") (by omega)
    (fun j hj => rfl)
    (fun j hj => rfl)

/-- C3: for every collaborator behaviour the function makes at most
`attempts` generator calls and at most `attempts` classifier calls, every
call it makes carries an attempt index below `attempts`, and its whole
outcome (result and call trace) only depends on the behaviour at indices
below `attempts`. -/
theorem c3_hard_cap (c c' : Collaborators) (attempts : Nat)
    (hgen : ∀ j s, j < attempts → c.gen j s = c'.gen j s)
    (hcls : ∀ j s, j < attempts → c.cls j s = c'.cls j s)
    (htoday : c.today = c'.today) :
    genCount (generate_prompt_with_chatgpt c attempts).2 ≤ attempts ∧
    clsCount (generate_prompt_with_chatgpt c attempts).2 ≤ attempts ∧
    (∀ ev, ev ∈ (generate_prompt_with_chatgpt c attempts).2 → eventIndex ev < attempts) ∧
    generate_prompt_with_chatgpt c attempts = generate_prompt_with_chatgpt c' attempts := by
  have hb := generateFrom_bounds c attempts 0
  have hcg := generateFrom_congr c c' attempts 0
    (fun j s h1 h2 => hgen j s (by omega))
    (fun j s h1 h2 => hcls j s (by omega))
    htoday
  refine ⟨hb.1, hb.2.1, ?_, hcg⟩
  intro ev hev
  have := (hb.2.2 ev hev).2
  omega

/-- Concrete instance for C3 with `cPure1` and budget 3. -/
theorem c3_hard_cap_witness :
    genCount (generate_prompt_with_chatgpt cPure1 3).2 ≤ 3 ∧
    clsCount (generate_prompt_with_chatgpt cPure1 3).2 ≤ 3 ∧
    (∀ ev, ev ∈ (generate_prompt_with_chatgpt cPure1 3).2 → eventIndex ev < 3) ∧
    generate_prompt_with_chatgpt cPure1 3 = generate_prompt_with_chatgpt cPure1 3 :=
  c3_hard_cap cPure1 cPure1 3 (fun _ _ _ => rfl) (fun _ _ _ => rfl) rfl

/-- C4: a classifier exception on an attempt is treated exactly as an
unsafe verdict — the candidate is rejected, the attempt is consumed and the
loop goes on; in particular, when the first classifier call raises and the
second accepts (with budget at least 2), the function returns the second
candidate after two generator and two classifier calls. -/
theorem c4_fail_closed (c : Collaborators) (attempts : Nat) (t0 t1 e0 : String)
    (h2 : 2 ≤ attempts)
    (hgen0 : c.gen 0 (promptText c.today) = Except.ok t0)
    (hcl0 : c.cls 0 (filterInput (pyStrip t0)) = Except.error e0)
    (hgen1 : c.gen 1 (promptText c.today) = Except.ok t1)
    (hacc : is_safe_prompt (c.cls 1) (pyStrip t1) = true) :
    is_safe_prompt (c.cls 0) (pyStrip t0) = false ∧
    (generate_prompt_with_chatgpt c attempts).1 = Except.ok (pyStrip t1) ∧
    genCount (generate_prompt_with_chatgpt c attempts).2 = 2 ∧
    clsCount (generate_prompt_with_chatgpt c attempts).2 = 2 := by
  have hrej0 : is_safe_prompt (c.cls 0) (pyStrip t0) = false := by
    simp [is_safe_prompt, hcl0]
  have h := generateFrom_accept c (fun j => if j = 0 then t0 else t1) 1 0 attempts (by omega)
    (fun j hj => by interval_cases j <;> simpa)
    (fun j hj => by interval_cases j; simpa using hrej0)
    (by simpa)
  exact ⟨hrej0, by simpa [generate_prompt_with_chatgpt] using h⟩

/-- Concrete run for C4 with `cFailClosed` and budget 2. -/
theorem c4_fail_closed_witness :
    is_safe_prompt (cFailClosed.cls 0) (pyStrip (toString 0)) = false ∧
    (generate_prompt_with_chatgpt cFailClosed 2).1 = Except.ok (pyStrip (toString 1)) ∧
    genCount (generate_prompt_with_chatgpt cFailClosed 2).2 = 2 ∧
    clsCount (generate_prompt_with_chatgpt cFailClosed 2).2 = 2 :=
  c4_fail_closed cFailClosed 2 (toString 0) (toString 1) "boom"
    (by omega) rfl rfl rfl (by decide)

/-- C5: a generator exception on attempt `i` (after `i` rejected attempts)
propagates to the caller: no classifier call happens for that attempt (only
`i` classifier calls against `i+1` generator calls), no further attempts
are made, and the fallback string is not returned. -/
theorem c5_generator_error (c : Collaborators) (attempts i : Nat) (t : Nat → String) (e : String)
    (hlt : i < attempts)
    (hgen : ∀ j, j < i → c.gen j (promptText c.today) = Except.ok (t j))
    (hrej : ∀ j, j < i → is_safe_prompt (c.cls j) (pyStrip (t j)) = false)
    (herr : c.gen i (promptText c.today) = Except.error e) :
    (generate_prompt_with_chatgpt c attempts).1 = Except.error e ∧
    genCount (generate_prompt_with_chatgpt c attempts).2 = i + 1 ∧
    clsCount (generate_prompt_with_chatgpt c attempts).2 = i ∧
    (generate_prompt_with_chatgpt c attempts).1 ≠
      Except.ok "Unable to generate a safe prompt after multiple attempts." := by
  have h := generateFrom_genError c t e i 0 attempts hlt
    (fun j hj => by simpa using hgen j hj)
    (fun j hj => by simpa using hrej j hj)
    (by simpa using herr)
  have h1 : (generate_prompt_with_chatgpt c attempts).1 = Except.error e := by
    simpa [generate_prompt_with_chatgpt] using h.1
  refine ⟨h1, ?_, ?_, ?_⟩
  · simpa [generate_prompt_with_chatgpt] using h.2.1
  · simpa [generate_prompt_with_chatgpt] using h.2.2
  · rw [h1]; simp

/-- Concrete run for C5: the generator raises on its very first call; the
error surfaces after one generator call and zero classifier calls. -/
theorem c5_generator_error_witness :
    (generate_prompt_with_chatgpt cGenErr 3).1 = Except.error "outage" ∧
    genCount (generate_prompt_with_chatgpt cGenErr 3).2 = 0 + 1 ∧
    clsCount (generate_prompt_with_chatgpt cGenErr 3).2 = 0 ∧
    (generate_prompt_with_chatgpt cGenErr 3).1 ≠
      Except.ok "Unable to generate a safe prompt after multiple attempts." :=
  c5_generator_error cGenErr 3 0 (fun _ => "") "outage" (by omega)
    (fun j hj => absurd hj (by omega))
    (fun j hj => absurd hj (by omega))
    rfl

/-- C6: every invocation terminates with one of exactly three outcomes —
a propagated generator error, the fallback string, or a candidate that some
in-range attempt generated and the classifier accepted. -/
theorem c6_terminates (c : Collaborators) (attempts : Nat) :
    (∃ e, (generate_prompt_with_chatgpt c attempts).1 = Except.error e) ∨
    (generate_prompt_with_chatgpt c attempts).1 = Except.ok fallbackString ∨
    (∃ i text, i < attempts ∧
      c.gen i (promptText c.today) = Except.ok text ∧
      is_safe_prompt (c.cls i) (pyStrip text) = true ∧
      (generate_prompt_with_chatgpt c attempts).1 = Except.ok (pyStrip text)) := by
  have h := generateFrom_outcomes c attempts 0
  simpa [generate_prompt_with_chatgpt] using h

/-- C7: the subsystem is a pure function of the attempt budget, the current
date and the collaborator behaviours: two invocations whose collaborators
agree pointwise and whose dates agree return the same result and make the
same sequence of collaborator calls. -/
theorem c7_deterministic (c c' : Collaborators) (attempts : Nat)
    (hgen : ∀ i s, c.gen i s = c'.gen i s)
    (hcls : ∀ i s, c.cls i s = c'.cls i s)
    (htoday : c.today = c'.today) :
    generate_prompt_with_chatgpt c attempts = generate_prompt_with_chatgpt c' attempts :=
  generateFrom_congr c c' attempts 0
    (fun j s _ _ => hgen j s) (fun j s _ _ => hcls j s) htoday

/-- Concrete instance for C7: `cPure1` and `cPure2` are written differently
but behave identically, so their runs coincide. -/
theorem c7_deterministic_witness :
    generate_prompt_with_chatgpt cPure1 3 = generate_prompt_with_chatgpt cPure2 3 :=
  c7_deterministic cPure1 cPure2 3 (fun i s => by simp [cPure1, cPure2])
    (fun i s => rfl) rfl

/-- Python slice `s[:n]` for an arbitrary integer bound `n`: a nonnegative
bound keeps the first `n` characters (capped at the length), a negative
bound drops the last `-n` characters. -/
def pySliceTo (s : String) (n : Int) : String :=
  String.mk (if 0 ≤ n then s.data.take n.toNat else s.data.take (s.data.length - (-n).toNat))

/-- The instruction text built at main.py line 76. -/
def summaryInstruction (max_length : Int) (original_prompt : String) : String :=
  "Summarize the following in less than " ++ toString max_length
    ++ " characters:\n\n" ++ original_prompt

/-- `summarize_prompt_with_chatgpt` (main.py lines 70-92): ask the
completion collaborator for a summary and strip it; if it exceeds
`max_length` characters, truncate to `max_length - 3` characters and append
`"..."`.  When the completion call raises, fall back to the original
prompt, truncated the same way when it is itself over the limit.
`complete` models the completion call (text of choice 0 or a raised
exception). -/
def summarize_prompt_with_chatgpt (complete : String → Except String String)
    (original_prompt : String) (max_length : Int) : String :=
  match complete (summaryInstruction max_length original_prompt) with
  | Except.ok text =>
    let summary := pyStrip text
    if (summary.length : Int) > max_length then
      pySliceTo summary (max_length - 3) ++ "..."
    else summary
  | Except.error _ =>
    if (original_prompt.length : Int) > max_length then
      pySliceTo original_prompt (max_length - 3) ++ "..."
    else original_prompt

/-- With a nonnegative bound the slice keeps `min n.toNat s.length`
characters. -/
lemma length_pySliceTo (s : String) (n : Int) (h : 0 ≤ n) :
    (pySliceTo s n).length = min n.toNat s.length := by
  have hs : pySliceTo s n = String.mk (s.data.take n.toNat) := by
    simp [pySliceTo, h]
  rw [hs]
  show (s.data.take n.toNat).length = min n.toNat s.length
  rw [List.length_take]
  rfl

/-- Outcome of each downstream step run by the `/post` route handler:
`genPrompt` models the `generate_prompt_with_chatgpt()` call (a string, or
the propagated generator exception), `genImage` the uncaught
`generate_image_with_dalle` call, `summarize` the (never-raising)
`summarize_prompt_with_chatgpt` call, `uploadMedia` the `upload_media` call
(whose HTTP requests may raise, and which returns `None` on a non-200
upload), and `postTweet` the `post_tweet_v2` call (which catches its own
exceptions and returns `None` on failure). -/
structure BotSteps where
  genPrompt : Except String String
  genImage : String → Except String String
  summarize : String → String
  uploadMedia : String → Except String (Option String)
  postTweet : String → Option String → Option String

/-- The body of the `try` block of `run_bot_and_post` (main.py lines
172-180): the five steps in order, an exception anywhere aborting the rest.
On completion it yields the prompt, the image locator, the caption, the
media id and the tweet confirmation link (`None` when posting failed). -/
def botWorkflow (s : BotSteps) :
    Except String (String × String × String × Option String × Option String) :=
  match s.genPrompt with
  | Except.error e => Except.error e
  | Except.ok prompt =>
    match s.genImage prompt with
    | Except.error e => Except.error e
    | Except.ok image_url =>
      let post_title := s.summarize prompt
      match s.uploadMedia image_url with
      | Except.error e => Except.error e
      | Except.ok media_id =>
        Except.ok (prompt, image_url, post_title, media_id, s.postTweet post_title media_id)

/-- The HTTP response of the `/post` route, restricted to the fields the
claims are about: the status code, the human-readable outcome message of
the 200 responses, the confirmation link when present, and the error text
of the 500 response. -/
structure RouteResponse where
  status : Nat
  message : Option String
  link : Option String
  errorText : Option String
deriving DecidableEq, Repr

/-- `run_bot_and_post` (main.py lines 165-186): run the workflow; a truthy
tweet link yields the 200 success response with the link, a falsy one the
200 failure response without it, and an escaped exception the 500 error
response. -/
def run_bot_and_post (s : BotSteps) : RouteResponse :=
  match botWorkflow s with
  | Except.ok (_, _, _, _, some url) =>
    ⟨200, some "Image posted to Twitter successfully.", some url, none⟩
  | Except.ok (_, _, _, _, none) =>
    ⟨200, some "Image was not posted to Twitter :(.", none, none⟩
  | Except.error e => ⟨500, none, none, some e⟩

/-- Concrete step outcomes on which the whole workflow completes and the
post succeeds. -/
def sOk : BotSteps :=
  ⟨Except.ok "p", fun _ => Except.ok "img", fun p => p,
   fun _ => Except.ok (some "m1"), fun _ _ => some "tw"⟩

/-- C8: the route answers 200 for every outcome that reaches completion —
with the confirmation link and the success message when the post was
published, without a link and with the failure message when posting failed
— and answers 500 exactly when an exception escapes the workflow. -/
theorem c8_route_status (s : BotSteps) :
    ((∃ r, botWorkflow s = Except.ok r) → (run_bot_and_post s).status = 200) ∧
    ((run_bot_and_post s).status = 500 ↔ ∃ e, botWorkflow s = Except.error e) ∧
    (∀ p iu pt mid url, botWorkflow s = Except.ok (p, iu, pt, mid, some url) →
      (run_bot_and_post s).link = some url ∧
      (run_bot_and_post s).message = some "Image posted to Twitter successfully.") ∧
    (∀ p iu pt mid, botWorkflow s = Except.ok (p, iu, pt, mid, none) →
      (run_bot_and_post s).link = none ∧
      (run_bot_and_post s).message = some "Image was not posted to Twitter :(.") := by
  rcases h : botWorkflow s with e | ⟨p, iu, pt, mid, tw⟩
  · refine ⟨?_, ?_, ?_, ?_⟩
    · rintro ⟨r, hr⟩; cases hr
    · simp [run_bot_and_post, h]
    · intro p iu pt mid url hok; cases hok
    · intro p iu pt mid hok; cases hok
  · cases tw with
    | some url =>
      refine ⟨fun _ => ?_, ?_, ?_, ?_⟩
      · simp [run_bot_and_post, h]
      · simp [run_bot_and_post, h]
      · intro p2 iu2 pt2 mid2 url2 hok
        injection hok with hok2
        simp at hok2
        obtain ⟨rfl, rfl, rfl, rfl, rfl⟩ := hok2
        simp [run_bot_and_post, h]
      · intro p2 iu2 pt2 mid2 hok
        injection hok with hok2
        simp at hok2
    | none =>
      refine ⟨fun _ => ?_, ?_, ?_, ?_⟩
      · simp [run_bot_and_post, h]
      · simp [run_bot_and_post, h]
      · intro p2 iu2 pt2 mid2 url2 hok
        injection hok with hok2
        simp at hok2
      · intro p2 iu2 pt2 mid2 hok
        simp [run_bot_and_post, h]

/-- Concrete run for C8: with `sOk` the route answers 200 and carries the
confirmation link. -/
theorem c8_route_status_witness :
    (run_bot_and_post sOk).status = 200 ∧ (run_bot_and_post sOk).link = some "tw" := by
  have h := c8_route_status sOk
  exact ⟨h.1 ⟨("p", "img", "p", some "m1", some "tw"), rfl⟩,
    (h.2.2.1 "p" "img" "p" (some "m1") "tw" rfl).1⟩

/-- C9: for every completion behaviour and every `max_length ≥ 3`, the
caption returned by the summarization step has at most `max_length`
characters, on the success path (an over-long summary is cut to
`max_length - 3` characters plus `"..."`) as well as on the error path
(the original prompt is cut the same way when over the limit and returned
unchanged otherwise). -/
theorem c9_caption_bound (complete : String → Except String String)
    (original_prompt : String) (max_length : Int)
    (h3 : 3 ≤ max_length) :
    ((summarize_prompt_with_chatgpt complete original_prompt max_length).length : Int)
      ≤ max_length := by
  unfold summarize_prompt_with_chatgpt
  cases h : complete (summaryInstruction max_length original_prompt) with
  | ok text =>
    simp only
    by_cases hl : ((pyStrip text).length : Int) > max_length
    · rw [if_pos hl, String.length_append, length_pySliceTo _ _ (by omega)]
      have he : ("...").length = 3 := by decide
      rw [he]
      omega
    · rw [if_neg hl]
      omega
  | error e =>
    simp only
    by_cases hl : ((original_prompt.length : Int) > max_length)
    · rw [if_pos hl, String.length_append, length_pySliceTo _ _ (by omega)]
      have he : ("...").length = 3 := by decide
      rw [he]
      omega
    · rw [if_neg hl]
      omega

/-- Concrete run for C9: an eleven-character summary against a budget of
five characters yields a five-character caption. -/
theorem c9_caption_bound_witness :
    (3 : Int) ≤ 5 ∧
    ((summarize_prompt_with_chatgpt (fun _ => Except.ok "hello world") "orig" 5).length : Int)
      ≤ 5 :=
  ⟨by decide, c9_caption_bound (fun _ => Except.ok "hello world") "orig" 5 (by decide)⟩

/-- C10: the wrapper judges a candidate unsafe exactly when the returned
label strips to the string "2" or when the classification call raises;
every other returned label — "0", "1", the empty string, or anything else —
counts as safe. -/
theorem c10_filter_semantics (classify : String → Except String String) (prompt : String) :
    is_safe_prompt classify prompt = false ↔
      ((∃ e, classify (filterInput prompt) = Except.error e) ∨
       (∃ l, classify (filterInput prompt) = Except.ok l ∧ pyStrip l = "2")) := by
  cases h : classify (filterInput prompt) with
  | error e => simp [is_safe_prompt, h]
  | ok l => simp [is_safe_prompt, h]

end Bots
